import Mathlib

/-!
Verification of the parametric type-unification and implicit-cast resolution
core of the repository (`src/custom_unification.py`) together with the
quaternion attribute lowering example (`src/quaternion_example.py`).

The repository defines `ExtensionType`, a parametric extension type whose
`unify` method delegates to the host unification engine (`context.unify_pairs`)
on its inner value type and re-wraps the result.  The host engine itself and
its numeric promotion lattice are not part of the repository sources; they are
modelled here from the design spec (equality short-circuit, unwrap/re-wrap
dispatch for parametric operands, promotion-lattice base case for
non-parametric pairs).
-/

/-- The universe of static types handled by the core: primitive numeric types,
composite (pair tuple) types as exercised by the examples (`func2` returns a
2-tuple), and the parametric extension type from `src/custom_unification.py`
(`ExtensionType`), which wraps exactly one inner type. -/
inductive NBType where
  | int32 : NBType
  | int64 : NBType
  | uint32 : NBType
  | float32 : NBType
  | float64 : NBType
  | tuple : NBType → NBType → NBType
  | extension : NBType → NBType
deriving DecidableEq, Repr

/-- Modelled from the spec: the host's numeric promotion lattice for
non-parametric type pairs (the "general (excluded) numeric/composite promotion
rules of the host type system").  The spec fixes the entry
`{UInt32, Float32} -> Float64` and a deterministic integer/float widening
lattice; no lattice entry connects scalar and composite categories, and
heterogeneous composites have no entry. -/
def promote : NBType → NBType → Option NBType
  | .uint32, .float32 => some .float64
  | .float32, .uint32 => some .float64
  | .int32, .int64 => some .int64
  | .int64, .int32 => some .int64
  | .int32, .float64 => some .float64
  | .float64, .int32 => some .float64
  | .float32, .float64 => some .float64
  | .float64, .float32 => some .float64
  | _, _ => none

/-- The unification engine `unify(A, B)`.  The dispatch structure is modelled
from the spec (the engine itself is the host's `context.unify_pairs`, outside
the repository sources): equal types unify to themselves; if at least one
operand is parametric, the parametric operand's custom `unify` applies —
translated from `ExtensionType.unify` in `src/custom_unification.py`, it
unifies the inner value type against the other operand and re-wraps the result
(`return ExtensionType(unified)`), propagating failure (`None`) unchanged; two
parametric operands unify their inner types recursively and re-wrap once; two
non-parametric operands fall back to the promotion lattice. -/
def unify_pairs (a b : NBType) : Option NBType :=
  if a = b then some a
  else
    match a, b with
    | .extension x, .extension y => (unify_pairs x y).map .extension
    | .extension x, o => (unify_pairs x o).map .extension
    | o, .extension y => (unify_pairs y o).map .extension
    | x, y => promote x y
termination_by sizeOf a + sizeOf b
decreasing_by
  all_goals simp_wf
  all_goals omega

/-- `ExtensionType.unify` from `src/custom_unification.py`: unify the inner
value type with the other type via the host engine; on failure return `None`,
otherwise wrap the unified type in `ExtensionType`. -/
def ExtensionType.unify (value other : NBType) : Option NBType :=
  (unify_pairs value other).map NBType.extension

/-- Whether a type is the parametric extension type (the spec's `Parametric`
variant). -/
def NBType.isParametric : NBType → Bool
  | .extension _ => true
  | _ => false

theorem NBType.param_cases (a : NBType) :
    (∃ x, a = NBType.extension x) ∨ a.isParametric = false := by
  cases a <;> simp [NBType.isParametric]

theorem unify_pairs_self (a : NBType) : unify_pairs a a = some a := by
  rw [unify_pairs.eq_def, if_pos rfl]

theorem unify_pairs_ext_ext (x y : NBType) :
    unify_pairs (NBType.extension x) (NBType.extension y) =
      (unify_pairs x y).map NBType.extension := by
  by_cases h : x = y
  · subst h
    rw [unify_pairs_self, unify_pairs_self]
    rfl
  · rw [unify_pairs.eq_def, if_neg (by simp [h])]

theorem unify_pairs_ext_left (x b : NBType) (hb : b.isParametric = false) :
    unify_pairs (NBType.extension x) b = (unify_pairs x b).map NBType.extension := by
  cases b
  case extension y => simp [NBType.isParametric] at hb
  all_goals rw [unify_pairs.eq_def, if_neg (by simp)]

theorem unify_pairs_left_ext (a y : NBType) (ha : a.isParametric = false) :
    unify_pairs a (NBType.extension y) = (unify_pairs y a).map NBType.extension := by
  cases a
  case extension x => simp [NBType.isParametric] at ha
  all_goals rw [unify_pairs.eq_def, if_neg (by simp)]

theorem unify_pairs_prim (a b : NBType) (ha : a.isParametric = false)
    (hb : b.isParametric = false) (h : a ≠ b) : unify_pairs a b = promote a b := by
  cases a
  case extension x => simp [NBType.isParametric] at ha
  all_goals cases b
  all_goals try simp [NBType.isParametric] at hb
  all_goals rw [unify_pairs.eq_def, if_neg h]

theorem NBType.isParametric_eq_false {o : NBType}
    (h : ∀ v, o = NBType.extension v → False) : o.isParametric = false := by
  cases o <;> first | rfl | exact (h _ rfl).elim

theorem promote_comm (a b : NBType) : promote a b = promote b a := by
  cases a <;> cases b <;> rfl

theorem unify_pairs_comm (a b : NBType) : unify_pairs a b = unify_pairs b a := by
  induction a, b using unify_pairs.induct with
  | case1 a => rfl
  | case2 x y h ih =>
    rw [unify_pairs_ext_ext, unify_pairs_ext_ext, ih]
  | case3 x o ho h ih =>
    have hb := NBType.isParametric_eq_false ho
    rw [unify_pairs_ext_left x o hb, unify_pairs_left_ext o x hb]
  | case4 o y ho ho2 h ih =>
    have ha := NBType.isParametric_eq_false ho
    rw [unify_pairs_left_ext o y ha, unify_pairs_ext_left y o ha]
  | case5 a b h1 h2 h3 h4 =>
    have hne : a ≠ b := by assumption
    have hna : ∀ u, a = NBType.extension u → False := by assumption
    have hnb : ∀ v, b = NBType.extension v → False := by assumption
    rw [unify_pairs_prim a b (NBType.isParametric_eq_false hna)
        (NBType.isParametric_eq_false hnb) hne,
      unify_pairs_prim b a (NBType.isParametric_eq_false hnb)
        (NBType.isParametric_eq_false hna) (fun hba => hne hba.symm), promote_comm]

/-- Strip all parametric wrappers from a type, exposing the non-parametric
payload that the promotion-lattice base case of unification ultimately sees. -/
def stripParametric : NBType → NBType
  | .extension x => stripParametric x
  | t => t

@[simp] theorem stripParametric_ext (x : NBType) :
    stripParametric (NBType.extension x) = stripParametric x := rfl

theorem stripParametric_eq_self {a : NBType} (ha : a.isParametric = false) :
    stripParametric a = a := by
  cases a
  case extension x => simp [NBType.isParametric] at ha
  all_goals rfl

theorem unify_pairs_eq_none_iff (a b : NBType) :
    unify_pairs a b = none ↔
      stripParametric a ≠ stripParametric b ∧
        promote (stripParametric a) (stripParametric b) = none := by
  induction a, b using unify_pairs.induct with
  | case1 a => simp [unify_pairs_self]
  | case2 x y h ih =>
    rw [unify_pairs_ext_ext]
    simpa [Option.map_eq_none'] using ih
  | case3 x o ho h ih =>
    have hb := NBType.isParametric_eq_false ho
    rw [unify_pairs_ext_left x o hb]
    simpa [Option.map_eq_none'] using ih
  | case4 o y ho ho2 h ih =>
    have ha := NBType.isParametric_eq_false ho
    rw [unify_pairs_left_ext o y ha]
    simp only [stripParametric_ext]
    rw [Option.map_eq_none', ih, ne_comm, promote_comm]
  | case5 a b h1 h2 h3 h4 =>
    have hne : a ≠ b := by assumption
    have hna : ∀ u, a = NBType.extension u → False := by assumption
    have hnb : ∀ v, b = NBType.extension v → False := by assumption
    rw [unify_pairs_prim a b (NBType.isParametric_eq_false hna)
        (NBType.isParametric_eq_false hnb) hne,
      stripParametric_eq_self (NBType.isParametric_eq_false hna),
      stripParametric_eq_self (NBType.isParametric_eq_false hnb)]
    simp [hne]

/-- Modelled from the spec: a cast descriptor records the source type, the
target (unified) type and the operand position it applies to; it is consumed
by the lowering backend. -/
structure CastDescriptor where
  srcTy : NBType
  dstTy : NBType
  operandIdx : Nat
deriving DecidableEq, Repr

/-- Modelled from the spec: the cast resolver.  For each operand with original
type `T`, if `T` equals the unified type no cast is needed, otherwise a
`CastDescriptor` from `T` to the unified type at that operand position is
emitted. -/
def resolveCasts (unified : NBType) (operands : List NBType) : List CastDescriptor :=
  operands.enum.filterMap fun p =>
    if p.2 = unified then none else some ⟨p.2, unified, p.1⟩

/-- Runtime values at the lowering layer: opaque primitive payloads, pair
values, and extension-struct values (the registered data model of
`ExtensionType` is a struct with the single member `value`). -/
inductive Val where
  | prim : Nat → Val
  | pair : Val → Val → Val
  | extv : Val → Val
deriving DecidableEq, Repr

/-- The lowering of casts, dispatching on the target type.
When the target is an `ExtensionType`, this is `cast_primitive_to_extension`
from `src/custom_unification.py` (registered for any source type): first cast
the incoming value to the target's inner value type
(`context.cast(builder, val, fromty, toty.value)` — the host cast, which
dispatches back here whenever the inner target is again parametric), then
build the extension struct wrapping the converted value.  The host backend's
cast for non-parametric targets is outside the repository and is kept
abstract as the parameter `primCast`. -/
def lower_cast (primCast : NBType → NBType → Val → Val) :
    NBType → NBType → Val → Val
  | fromty, .extension inner, v => Val.extv (lower_cast primCast fromty inner v)
  | fromty, toty, v => primCast fromty toty v

section QuaternionAttrs

variable {K : Type} [Field K]

/-- The Python property `Quaternion.phi` from `src/quaternion_example.py`
(`math.atan(2 * (a * b + c * d) / (a * a - b * b - c * c + d * d))`), with the
transcendental `math.atan` kept abstract as `atanF` and the float64 arithmetic
modelled as field arithmetic. -/
def quaternion_phi (atanF : K → K) (a b c d : K) : K :=
  atanF (2 * (a * b + c * d) / (a * a - b * b - c * c + d * d))

/-- The Python property `Quaternion.theta` from `src/quaternion_example.py`
(`-math.asin(2 * (b * d - a * c))`). -/
def quaternion_theta (asinF : K → K) (a b c d : K) : K :=
  -asinF (2 * (b * d - a * c))

/-- The Python property `Quaternion.psi` from `src/quaternion_example.py`
(`math.atan(2 * (a * d + b * c) / (a * a + b * b - c * c - d * d))`). -/
def quaternion_psi (atanF : K → K) (a b c d : K) : K :=
  atanF (2 * (a * d + b * c) / (a * a + b * b - c * c - d * d))

/-- The GPU-lowered attribute `cuda_quaternion_phi` from
`src/quaternion_example.py`, with the emitted `fmul`/`fadd`/`fsub`/`fdiv`
instructions modelled as field arithmetic and the `math.atan` libcall kept
abstract as `atanF`: `numerator = fadd(fmul(a,b), fmul(c,d))`,
`denominator = fadd(fsub(fsub(a2,b2),c2),d2)`,
`atan_arg = fmul(2, fdiv(numerator, denominator))`. -/
def cuda_quaternion_phi (atanF : K → K) (a b c d : K) : K :=
  let a2 := a * a
  let b2 := b * b
  let c2 := c * c
  let d2 := d * d
  let numerator := a * b + c * d
  let denominator := a2 - b2 - c2 + d2
  atanF (2 * (numerator / denominator))

/-- The GPU-lowered attribute `cuda_quaternion_theta` from
`src/quaternion_example.py`: `x = fsub(fmul(b,d), fmul(a,c))`,
`asin_arg = fmul(2, x)`, result `fsub(-0.0, asin_res)`. -/
def cuda_quaternion_theta (asinF : K → K) (a b c d : K) : K :=
  let x := b * d - a * c
  (-0 : K) - asinF (2 * x)

/-- The GPU-lowered attribute `cuda_quaternion_psi` from
`src/quaternion_example.py`: `numerator = fadd(fmul(a,d), fmul(b,c))`,
`denominator = fsub(fsub(fadd(a2,b2),c2),d2)`,
`atan_arg = fmul(2, fdiv(numerator, denominator))`. -/
def cuda_quaternion_psi (atanF : K → K) (a b c d : K) : K :=
  let a2 := a * a
  let b2 := b * b
  let c2 := c * c
  let d2 := d * d
  let numerator := a * d + b * c
  let denominator := a2 + b2 - c2 - d2
  atanF (2 * (numerator / denominator))

end QuaternionAttrs

/-- C1 counterexample: wrap propagation fails as universally stated.  With
`X = UInt32` and `Y = Parametric(Float32)`, `unify(X, Y) = Unified(Z)` for
`Z = Parametric(Float64)`, yet `unify(Parametric(X), Y)` is
`Unified(Parametric(Float64))`, not `Unified(Parametric(Z))`: once both
operands are parametric the engine re-wraps exactly once, so the wrapper does
not accumulate. -/
theorem claim_C1_counterexample :
    unify_pairs NBType.uint32 (NBType.extension NBType.float32) =
      some (NBType.extension NBType.float64) ∧
    ¬ unify_pairs (NBType.extension NBType.uint32) (NBType.extension NBType.float32) =
      some (NBType.extension (NBType.extension NBType.float64)) := by
  constructor
  · rw [unify_pairs_left_ext _ _ (by rfl), unify_pairs_prim _ _ (by rfl) (by rfl) (by decide)]
    rfl
  · rw [unify_pairs_ext_ext, unify_pairs_prim _ _ (by rfl) (by rfl) (by decide)]
    decide

/-- C1 (amended): for the parametric constructor `P` and non-parametric types
`X`, `Y` such that `unify(X, Y) = Unified(Z)`, unifying a wrapped type against
an unwrapped one propagates the wrapper:
`unify(P(X), Y) = unify(X, P(Y)) = Unified(P(Z))`. -/
theorem claim_C1_wrap_propagation (X Y Z : NBType)
    (hX : X.isParametric = false) (hY : Y.isParametric = false)
    (h : unify_pairs X Y = some Z) :
    unify_pairs (NBType.extension X) Y = some (NBType.extension Z) ∧
    unify_pairs X (NBType.extension Y) = some (NBType.extension Z) := by
  constructor
  · rw [unify_pairs_ext_left X Y hY, h]
    rfl
  · rw [unify_pairs_left_ext X Y hX, unify_pairs_comm Y X, h]
    rfl

/-- C1 witness: the amended wrap propagation at `X = UInt32`, `Y = Float32`,
`Z = Float64`. -/
theorem claim_C1_wrap_propagation_witness :
    unify_pairs (NBType.extension NBType.uint32) NBType.float32 =
      some (NBType.extension NBType.float64) ∧
    unify_pairs NBType.uint32 (NBType.extension NBType.float32) =
      some (NBType.extension NBType.float64) :=
  claim_C1_wrap_propagation NBType.uint32 NBType.float32 NBType.float64 rfl rfl
    (by rw [unify_pairs_prim _ _ (by rfl) (by rfl) (by decide)]; rfl)

/-- C2: when both operands are parametric, their inner types are unified
recursively and the result is re-wrapped exactly once:
`unify(P(X), P(Y)) = Unified(P(Z))` whenever `unify(X, Y) = Unified(Z)`, and
`unify(P(X), P(Y)) = Failed` when the inner unification fails. -/
theorem claim_C2_parametric_recursion (X Y : NBType) :
    (∀ Z, unify_pairs X Y = some Z →
      unify_pairs (NBType.extension X) (NBType.extension Y) =
        some (NBType.extension Z)) ∧
    (unify_pairs X Y = none →
      unify_pairs (NBType.extension X) (NBType.extension Y) = none) := by
  constructor
  · intro Z hZ
    rw [unify_pairs_ext_ext, hZ]
    rfl
  · intro hn
    rw [unify_pairs_ext_ext, hn]
    rfl

/-- C2 witness: parametric recursion at `X = UInt32`, `Y = Float32`, whose
inner unification promotes to `Float64`. -/
theorem claim_C2_parametric_recursion_witness :
    unify_pairs (NBType.extension NBType.uint32) (NBType.extension NBType.float32) =
      some (NBType.extension NBType.float64) :=
  (claim_C2_parametric_recursion NBType.uint32 NBType.float32).1 NBType.float64
    (by rw [unify_pairs_prim _ _ (by rfl) (by rfl) (by decide)]; rfl)

/-- C3: two parametric types are equal exactly when their inner types are
equal (there is a single parametric constructor tag, so sharing the tag is
implicit); in particular distinct inner types give distinct parametric
types. -/
theorem claim_C3_parametric_equality (A B : NBType) :
    NBType.extension A = NBType.extension B ↔ A = B := by
  constructor
  · intro h
    injection h
  · intro h
    rw [h]

/-- C4: unification failure is a value, never an exception: the total function
`unify_pairs` returns `none` exactly when the non-parametric promotion step at
the bottom of the parametric nesting finds no common type, and otherwise
returns a unified type.  The `none` result is what the (excluded) caller
surfaces as a typing diagnostic. -/
theorem claim_C4_failure_is_value (A B : NBType) :
    unify_pairs A B = none ↔
      stripParametric A ≠ stripParametric B ∧
        promote (stripParametric A) (stripParametric B) = none :=
  unify_pairs_eq_none_iff A B

/-- C5: end-to-end scenario B.  For operands
`{Parametric(UInt32), Float32}` the inner promotion lattice maps
`{UInt32, Float32}` to `Float64`, the overall unification result is
`Unified(Parametric(Float64))`, and the cast resolver emits exactly two
descriptors because both operands differ from the unified type. -/
theorem claim_C5_scenario_B :
    promote NBType.uint32 NBType.float32 = some NBType.float64 ∧
    unify_pairs (NBType.extension NBType.uint32) NBType.float32 =
      some (NBType.extension NBType.float64) ∧
    resolveCasts (NBType.extension NBType.float64)
        [NBType.extension NBType.uint32, NBType.float32] =
      [⟨NBType.extension NBType.uint32, NBType.extension NBType.float64, 0⟩,
       ⟨NBType.float32, NBType.extension NBType.float64, 1⟩] := by
  refine ⟨rfl, ?_, ?_⟩
  · rw [unify_pairs_ext_left _ _ (by rfl), unify_pairs_prim _ _ (by rfl) (by rfl) (by decide)]
    rfl
  · decide

/-- C6: casting into a parametric target is a wrap for every source type
(including a parametric source): the source value is first converted to the
target's inner type by the same cast rule and the extension wrapper is then
constructed around the converted value.  Additionally, end-to-end scenario A:
`{Parametric(Int64), Int64}` unifies to `Unified(Parametric(Int64))` and the
resolver emits exactly one descriptor, the wrap `Int64 -> Parametric(Int64)`
for the second operand. -/
theorem claim_C6_cast_is_wrap :
    (∀ (primCast : NBType → NBType → Val → Val) (fromty inner : NBType) (v : Val),
      lower_cast primCast fromty (NBType.extension inner) v =
        Val.extv (lower_cast primCast fromty inner v)) ∧
    unify_pairs (NBType.extension NBType.int64) NBType.int64 =
      some (NBType.extension NBType.int64) ∧
    resolveCasts (NBType.extension NBType.int64)
        [NBType.extension NBType.int64, NBType.int64] =
      [⟨NBType.int64, NBType.extension NBType.int64, 1⟩] := by
  refine ⟨fun primCast fromty inner v => rfl, ?_, ?_⟩
  · rw [unify_pairs_ext_left _ _ (by rfl), unify_pairs_self]
    rfl
  · decide

/-- C7: a scalar against a composite has no common type: both
`unify(Int64, TupleOf(Int64, Int64))` and the scenario C pair
`unify(Int64, TupleOf(Int32, Int32))` return `Failed` as a value. -/
theorem claim_C7_scalar_tuple_failed :
    unify_pairs NBType.int64 (NBType.tuple NBType.int64 NBType.int64) = none ∧
    unify_pairs NBType.int64 (NBType.tuple NBType.int32 NBType.int32) = none := by
  constructor <;> (rw [unify_pairs_prim _ _ (by rfl) (by rfl) (by decide)]; rfl)

/-- C8: reflexivity of unification: `unify(T, T) = Unified(T)` for every
type `T`, parametric types included. -/
theorem claim_C8_unify_reflexive (T : NBType) : unify_pairs T T = some T :=
  unify_pairs_self T

/-- C9: symmetry of unification: `unify(A, B) = unify(B, A)` for all type
pairs. -/
theorem claim_C9_unify_symmetric (A B : NBType) :
    unify_pairs A B = unify_pairs B A :=
  unify_pairs_comm A B

/-- C10: for every quaternion with components `(a, b, c, d)` the GPU-lowered
attribute implementations compute the same expressions as the Python
`Quaternion` properties, with the float64 instructions modelled as field
arithmetic and the transcendental libcalls kept abstract:
`phi = atan(2*(a*b + c*d)/(a*a - b*b - c*c + d*d))`,
`theta = -asin(2*(b*d - a*c))`,
`psi = atan(2*(a*d + b*c)/(a*a + b*b - c*c - d*d))`. -/
theorem claim_C10_quaternion_lowering_equiv {K : Type} [Field K]
    (atanF asinF : K → K) (a b c d : K) :
    cuda_quaternion_phi atanF a b c d = quaternion_phi atanF a b c d ∧
    cuda_quaternion_theta asinF a b c d = quaternion_theta asinF a b c d ∧
    cuda_quaternion_psi atanF a b c d = quaternion_psi atanF a b c d := by
  refine ⟨?_, ?_, ?_⟩
  · simp only [cuda_quaternion_phi, quaternion_phi]
    rw [mul_div_assoc]
  · simp only [cuda_quaternion_theta, quaternion_theta]
    rw [neg_zero, zero_sub]
  · simp only [cuda_quaternion_psi, quaternion_psi]
    rw [mul_div_assoc]
